import Mathlib

/-!
Verification of the live manual-stats overlay
(selfdrive/ui/mici/onroad/manual_stats_widget.py).

The stateful computation layer behind the overlay is shallowly embedded:
Python floats become rationals (decimal constants are written as exact
fractions, e.g. 3.626 as 3626/1000), the per-frame `_render` method becomes a
pure `tick` function from widget state and tick inputs to the next widget
state and an optional render model, and the external key-value store read
becomes an explicit input of each tick. Drawing primitives are excluded; the
render model records what would be drawn.
-/

namespace ManualStats

/-! ## Constants (module-level constants of the widget file) -/

def RPM_REDLINE : ℚ := 7500

def RPM_ECONOMY_MAX : ℚ := 2500

def RPM_POWER_MIN : ℚ := 4000

def RPM_DANGER_MIN : ℚ := 6500

/-- Upshift indicator is not shown below this RPM. -/
def RPM_TARGET_MIN_DISPLAY : ℚ := 750

/-- 2024 BRZ gear ratios for rev-match calculation (the Python dict lookup,
`1: 3.626, 2: 2.188, 3: 1.541, 4: 1.213, 5: 1.000, 6: 0.767`). -/
def BRZ_GEAR_RATIOS (gear : ℤ) : Option ℚ :=
  if gear = 1 then some (3626/1000)
  else if gear = 2 then some (2188/1000)
  else if gear = 3 then some (1541/1000)
  else if gear = 4 then some (1213/1000)
  else if gear = 5 then some (1000/1000)
  else if gear = 6 then some (767/1000)
  else none

/-- 4.10 -/
def BRZ_FINAL_DRIVE : ℚ := 41/10

/-- 1.977 -/
def BRZ_TIRE_CIRCUMFERENCE : ℚ := 1977/1000

/-! ## Python numeric helpers

`pyRound` is Python 3 `round` (round-half-to-even); `pyInt` is `int()`
truncation toward zero. -/

def pyRound (q : ℚ) : ℤ :=
  if 1/2 < Int.fract q then ⌊q⌋ + 1
  else if Int.fract q < 1/2 then ⌊q⌋
  else if 2 ∣ ⌊q⌋ then ⌊q⌋ else ⌊q⌋ + 1

/-- `int(round(q / 10) * 10)`: round to the nearest multiple of ten. -/
def roundTen (q : ℚ) : ℤ := pyRound (q / 10) * 10

def pyInt (q : ℚ) : ℤ := if q < 0 then ⌈q⌉ else ⌊q⌋

/-! ## Target-RPM calculator -/

/-- `rpm_for_speed_and_gear`: expected RPM for a given speed and gear.
Returns 0 when the gear is not a key of `BRZ_GEAR_RATIOS` or the speed is
non-positive, otherwise
`speed_ms * BRZ_FINAL_DRIVE * BRZ_GEAR_RATIOS[gear] * 60 / BRZ_TIRE_CIRCUMFERENCE`. -/
def rpm_for_speed_and_gear (speed_ms : ℚ) (gear : ℤ) : ℚ :=
  if (BRZ_GEAR_RATIOS gear).isNone ∨ speed_ms ≤ 0 then 0
  else speed_ms * BRZ_FINAL_DRIVE * ((BRZ_GEAR_RATIOS gear).getD 0) * 60 / BRZ_TIRE_CIRCUMFERENCE

/-! ## C1: the target-RPM calculator -/

lemma gear_ratios_isSome_iff (g : ℤ) :
    (BRZ_GEAR_RATIOS g).isSome = true ↔ (1 ≤ g ∧ g ≤ 6) := by
  unfold BRZ_GEAR_RATIOS
  split_ifs with h1 h2 h3 h4 h5 h6 <;> simp <;> omega

lemma rpm_exact_value : rpm_for_speed_and_gear 10 3 = 1263620 / 659 := by
  norm_num [rpm_for_speed_and_gear, BRZ_GEAR_RATIOS, BRZ_FINAL_DRIVE, BRZ_TIRE_CIRCUMFERENCE]

/-- C1 (counterexample): at gear 3 and speed 10 m/s the calculator returns
1263620/659 ≈ 1917.48 rpm, which is not within the spec's ±0.1 tolerance of the
claimed ≈1916.6 rpm. -/
theorem c1_counterexample :
    rpm_for_speed_and_gear 10 3 = 1263620 / 659 ∧
    ¬ |rpm_for_speed_and_gear 10 3 - 9583/5| ≤ 1/10 := by
  refine ⟨rpm_exact_value, ?_⟩
  rw [rpm_exact_value]
  rw [show |(1263620 / 659 : ℚ) - 9583/5| = 2903 / 3295 by rw [abs_of_pos] <;> norm_num]
  norm_num

/-- C1 (amended): `rpm_for_speed_and_gear` is a pure function returning exactly
0 when the gear is not a key of the gear-ratio table (gears 1..6) or the speed
is ≤ 0, and otherwise `speed * 4.10 * ratio[gear] * 60 / 1.977`; gear 3 at
10 m/s yields ≈1917.5 rpm (not ≈1916.6 as originally claimed). -/
theorem c1_target_rpm :
    (∀ g : ℤ, (BRZ_GEAR_RATIOS g).isSome = true ↔ (1 ≤ g ∧ g ≤ 6)) ∧
    BRZ_FINAL_DRIVE = 41/10 ∧ BRZ_TIRE_CIRCUMFERENCE = 1977/1000 ∧
    (∀ (s : ℚ) (g : ℤ), BRZ_GEAR_RATIOS g = none ∨ s ≤ 0 →
      rpm_for_speed_and_gear s g = 0) ∧
    (∀ (s : ℚ) (g : ℤ) (r : ℚ), BRZ_GEAR_RATIOS g = some r → 0 < s →
      rpm_for_speed_and_gear s g = s * BRZ_FINAL_DRIVE * r * 60 / BRZ_TIRE_CIRCUMFERENCE) ∧
    |rpm_for_speed_and_gear 10 3 - 3835/2| ≤ 1/10 := by
  refine ⟨gear_ratios_isSome_iff, rfl, rfl, ?_, ?_, ?_⟩
  · intro s g h
    unfold rpm_for_speed_and_gear
    rcases h with h | h
    · rw [if_pos (Or.inl (by simp [h]))]
    · rw [if_pos (Or.inr h)]
  · intro s g r hg hs
    unfold rpm_for_speed_and_gear
    rw [if_neg]
    · rw [hg]; rfl
    · simp only [hg, Option.isNone_some, Bool.false_eq_true, false_or, not_le]
      exact hs
  · rw [rpm_exact_value]
    rw [show |(1263620 / 659 : ℚ) - 3835/2| = 25 / 1318 by rw [abs_of_neg] <;> norm_num]
    norm_num

/-- C1 (witness): concrete instances of `c1_target_rpm`: gear 7 is not in the
table, speed 0 gives 0, and gear 3 at 10 m/s follows the formula. -/
theorem c1_target_rpm_witness :
    rpm_for_speed_and_gear 10 7 = 0 ∧
    rpm_for_speed_and_gear 0 3 = 0 ∧
    rpm_for_speed_and_gear 10 3 = 10 * BRZ_FINAL_DRIVE * (1541/1000) * 60 / BRZ_TIRE_CIRCUMFERENCE :=
  ⟨c1_target_rpm.2.2.2.1 10 7 (Or.inl (by norm_num [BRZ_GEAR_RATIOS])),
   c1_target_rpm.2.2.2.1 0 3 (Or.inr (by norm_num)),
   c1_target_rpm.2.2.2.2.1 10 3 (1541/1000) (by norm_num [BRZ_GEAR_RATIOS]) (by norm_num)⟩

/-! ## Data model -/

/-- The widget's palette, abstracted from the raylib color literals. -/
inductive UIColor where
  | green
  | yellow
  | red
  | orange
  | cyan
  | white
  | gray
deriving DecidableEq

/-- Snapshot of the session-stats dict read from the external store. The code
reads keys with `.get(key, default)`, so every key is optional. -/
structure Stats where
  launches : Option ℤ
  good_launches : Option ℤ
  stalls : Option ℤ
  lugs : Option ℤ
  shifts : Option ℤ
  good_shifts : Option ℤ
  shift_suggestion : Option String
deriving DecidableEq

/-- The empty dict `{}`. -/
def emptyStats : Stats := ⟨none, none, none, none, none, none, none⟩

/-- Outcome of `self._params.get("ManualDriveLiveStats")` inside the
`try`/`except` of `_load_stats`: a truthy dict, a falsy result (`None` or an
empty dict), or a raised exception. -/
inductive ParamsResult where
  | value (s : Stats)
  | missing
  | error
deriving DecidableEq

/-- `_load_stats`: `self._stats = data if data else {}`, with any exception
also yielding `{}`. Total, so an error is never propagated. -/
def load_stats : ParamsResult → Stats
  | .value s => s
  | .missing => emptyStats
  | .error => emptyStats

/-- The fields of the CarState message the widget reads. -/
structure CarState where
  engineRpm : ℚ
  gearActual : ℤ
  shiftGrade : ℤ
  clutchPressed : Bool
  vEgo : ℚ
  isLugging : Bool
deriving DecidableEq

/-- Shift-grade flash state: `_last_shift_grade`, `_shift_flash_frames`,
`_flash_grade`. -/
structure FlashState where
  last_shift_grade : ℤ
  shift_flash_frames : ℕ
  flash_grade : ℤ
deriving DecidableEq

/-! ## Shift-flash state machine -/

/-- Lines 103-109 of `_render`: trigger on `cs.shiftGrade > 0` with
`_last_shift_grade == 0`, then unconditionally store the raw grade in
`_last_shift_grade`. The Bool reports whether the trigger fired. -/
def flash_trigger (fs : FlashState) (grade : ℤ) : FlashState × Bool :=
  if 0 < grade ∧ fs.last_shift_grade = 0 then
    (⟨grade, 150, grade⟩, true)
  else
    ({ fs with last_shift_grade := grade }, false)

/-- Lines 112-126 of `_render`: while `_shift_flash_frames > 0`, decrement it
and display the stored `_flash_grade`; otherwise display nothing. -/
def flash_countdown (fs : FlashState) : FlashState × Option ℤ :=
  if 0 < fs.shift_flash_frames then
    ({ fs with shift_flash_frames := fs.shift_flash_frames - 1 }, some fs.flash_grade)
  else (fs, none)

/-- One tick of the flash machine: trigger check, then countdown/display.
Returns (new state, displayed grade if flashing, whether the trigger fired). -/
def flash_step (fs : FlashState) (grade : ℤ) : FlashState × Option ℤ × Bool :=
  let t := flash_trigger fs grade
  let c := flash_countdown t.1
  (c.1, c.2, t.2)

/-- Glyph/color class chosen for a displayed flash grade: 1 is good (green
check), 2 is marginal (yellow tilde), anything else is bad (red cross). -/
inductive GradeGlyph where
  | good
  | marginal
  | bad
deriving DecidableEq

def glyph_for_grade (g : ℤ) : GradeGlyph :=
  if g = 1 then .good else if g = 2 then .marginal else .bad

/-- Run the flash machine over a grade sequence, counting trigger firings and
collecting the per-tick displayed grade. -/
def run_flash : FlashState → List ℤ → FlashState × ℕ × List (Option ℤ)
  | fs, [] => (fs, 0, [])
  | fs, g :: gs =>
    let s := flash_step fs g
    let r := run_flash s.1 gs
    (r.1, (if s.2.2 then 1 else 0) + r.2.1, s.2.1 :: r.2.2)

/-! ## RPM smoothing filter -/

/-- Modelled from the spec: the RPM smoothing filter is
`opendbc.car.common.filter_simple.FirstOrderFilter`, whose code is not part of
this repository's sources; per the spec the accumulator is updated each tick
via `x <- x + (raw - x) * (period / timeConstant)` with period 1/60 s and time
constant 0.1 s. Constructed as `FirstOrderFilter(0, 0.1, 1/60)`. -/
def filter_update (x raw : ℚ) : ℚ := x + (raw - x) * ((1/60) / (1/10))

/-! ## RPM meter and rev-match target resolver -/

/-- Rev-match target marker: warning flag (downshift target over redline,
clamped to the meter's top edge at position fraction 1), position as a
fraction of the meter width, and the label rounded to the nearest 10 rpm. -/
structure TargetMarker where
  warning : Bool
  pos_frac : ℚ
  label : ℤ
deriving DecidableEq

/-- Rev-match targets as rendered: full emphasis (alpha 220) when the clutch
is pressed, reduced emphasis (alpha 143) when shown only due to a suggestion. -/
structure RevTargets where
  full_emphasis : Bool
  down_marker : Option TargetMarker
  up_marker : Option TargetMarker
deriving DecidableEq

/-- Lines 204-206: track gear before clutch press for rev-match display. -/
def gear_before_clutch_step (t : ℤ) (cs : CarState) : ℤ :=
  if cs.clutchPressed = false ∧ 0 < cs.gearActual then cs.gearActual else t

/-- Line 221-222: downshift target RPM, 0 unless the tracked gear is above 1. -/
def down_rpm_for (tracker : ℤ) (v : ℚ) : ℚ :=
  if 1 < tracker then rpm_for_speed_and_gear v (tracker - 1) else 0

/-- Line 223-224: upshift target RPM, 0 unless the tracked gear is below 6. -/
def up_rpm_for (tracker : ℤ) (v : ℚ) : ℚ :=
  if tracker < 6 then rpm_for_speed_and_gear v (tracker + 1) else 0

/-- Lines 227-236: downshift marker. At or over redline it is a warning
clamped to the meter's right edge; above the minimum display threshold it is a
proportional cyan marker; otherwise suppressed. -/
def down_marker_for (d : ℚ) : Option TargetMarker :=
  if RPM_REDLINE ≤ d then some ⟨true, 1, roundTen d⟩
  else if RPM_TARGET_MIN_DISPLAY < d then some ⟨false, d / RPM_REDLINE, roundTen d⟩
  else none

/-- Lines 239-242: upshift marker, shown only strictly between the minimum
display threshold and redline. -/
def up_marker_for (u : ℚ) : Option TargetMarker :=
  if RPM_TARGET_MIN_DISPLAY < u ∧ u < RPM_REDLINE then
    some ⟨false, u / RPM_REDLINE, roundTen u⟩
  else none

/-- Lines 208-242: rev-match target lines, shown when the clutch is pressed or
a shift suggestion is active, and a pre-clutch gear has been tracked. -/
def rev_targets_resolve (tracker : ℤ) (stats : Stats) (cs : CarState) : Option RevTargets :=
  if (cs.clutchPressed = true ∨ (stats.shift_suggestion).getD ("ok") ≠ "ok") ∧ 0 < tracker then
    some ⟨cs.clutchPressed,
          down_marker_for (down_rpm_for tracker cs.vEgo),
          up_marker_for (up_rpm_for tracker cs.vEgo)⟩
  else none

/-- Lines 191-198: bar color from the raw RPM zone. -/
def rpm_bar_color (rpm : ℚ) : UIColor :=
  if rpm < RPM_ECONOMY_MAX then .green
  else if rpm < RPM_POWER_MIN then .yellow
  else if rpm < RPM_DANGER_MIN then .orange
  else .red

/-- Output of `_draw_rpm_meter`: bar fill fraction, zone color, optional
rev-match targets, and the filtered RPM label rounded to the nearest 10. -/
structure RpmMeterOut where
  fill_frac : ℚ
  bar_color : UIColor
  rev_targets : Option RevTargets
  rpm_label : ℤ
deriving DecidableEq

/-- `_draw_rpm_meter`: returns the updated `_gear_before_clutch`, the updated
filter accumulator `_rpm_filter.x`, and the meter render output. -/
def draw_rpm_meter (t : ℤ) (fx : ℚ) (stats : Stats) (cs : CarState) :
    ℤ × ℚ × RpmMeterOut :=
  let tracker := gear_before_clutch_step t cs
  let fx2 := filter_update fx cs.engineRpm
  (tracker, fx2,
    { fill_frac := min (cs.engineRpm / RPM_REDLINE) 1
      bar_color := rpm_bar_color cs.engineRpm
      rev_targets := rev_targets_resolve tracker stats cs
      rpm_label := roundTen fx2 })

/-! ## Gear label, suggestion arrow, launch and stats rows -/

def gear_label (gear : ℤ) : String :=
  if 0 < gear then toString gear else "N"

inductive SuggestionArrow where
  | up
  | down
  | noArrow
deriving DecidableEq

/-- Lines 129-133: shift suggestion arrow. -/
def suggestion_arrow (stats : Stats) : SuggestionArrow :=
  let s := (stats.shift_suggestion).getD ("ok")
  if s = "upshift" then .up else if s = "downshift" then .down else .noArrow

/-- Launch line: transient LAUNCHING indicator, the good/total ratio text
colored by its percentage, or the no-data placeholder. -/
inductive LaunchDisplay where
  | launching
  | ratioText (good total : ℤ) (color : UIColor)
  | noData
deriving DecidableEq

/-- Lines 138-148: launch feedback. The Bool reports whether the
`good_launches / launches` division was evaluated. -/
def launch_display (stats : Stats) (cs : CarState) : LaunchDisplay × Bool :=
  let launches := (stats.launches).getD 0
  let good_launches := (stats.good_launches).getD 0
  if cs.vEgo < 5 ∧ 1/2 < cs.vEgo ∧ cs.clutchPressed = false then
    (.launching, false)
  else if 0 < launches then
    let pct := if 0 < launches then pyInt ((good_launches : ℚ) / (launches : ℚ) * 100) else 0
    (.ratioText good_launches launches
      (if 75 ≤ pct then .green else if 50 ≤ pct then .yellow else .gray),
     decide (0 < launches))
  else (.noData, false)

/-- Stall/lug line: LUGGING indicator or the two counters with their colors. -/
inductive StallLugDisplay where
  | lugging
  | counters (stalls lugs : ℤ) (stall_color lug_color : UIColor)
deriving DecidableEq

/-- Lines 155-165: stalls and lugs. -/
def stall_lug_display (stats : Stats) (cs : CarState) : StallLugDisplay :=
  let stalls := (stats.stalls).getD 0
  let lugs := (stats.lugs).getD 0
  if cs.isLugging then .lugging
  else .counters stalls lugs
    (if stalls = 0 then .green else .red)
    (if lugs = 0 then .green else .yellow)

/-- Shift-quality line: the percentage with its color, or the no-data
placeholder. -/
inductive ShiftDisplay where
  | pctText (p : ℤ) (color : UIColor)
  | noData
deriving DecidableEq

/-- Lines 168-175: shift quality. The Bool reports whether the
`good_shifts / shifts` division was evaluated. -/
def shift_quality_display (stats : Stats) : ShiftDisplay × Bool :=
  let shifts := (stats.shifts).getD 0
  let good_shifts := (stats.good_shifts).getD 0
  if 0 < shifts then
    let pct := pyInt ((good_shifts : ℚ) / (shifts : ℚ) * 100)
    (.pctText pct (if 80 ≤ pct then .green else if 50 ≤ pct then .yellow else .red), true)
  else (.noData, false)

/-! ## Overlay controller -/

/-- The render model assembled by one non-skipped tick. -/
structure RenderModel where
  meter : RpmMeterOut
  gear_text : String
  flash_display : Option ℤ
  flash_glyph : Option GradeGlyph
  arrow : SuggestionArrow
  launch : LaunchDisplay
  stall_lug : StallLugDisplay
  shift_quality : ShiftDisplay
deriving DecidableEq

/-- The widget's mutable fields: `_stats`, `_update_counter`, the flash state,
`_gear_before_clutch`, and the filter accumulator `_rpm_filter.x`. -/
structure WidgetState where
  stats : Stats
  update_counter : ℕ
  flash : FlashState
  gear_before_clutch : ℤ
  rpm_filter_x : ℚ
deriving DecidableEq

/-- The constructor's initial state. -/
def initState : WidgetState := ⟨emptyStats, 0, ⟨0, 0, 0⟩, 0, 0⟩

/-- Lines 68-72: stats refresh scheduler. Increment the tick counter; on
reaching 15, reset it and read the store. Returns (counter, stats, read?). -/
def scheduler_step (counter : ℕ) (stats : Stats) (store : ParamsResult) :
    ℕ × Stats × Bool :=
  if 15 ≤ counter + 1 then (0, load_stats store, true)
  else (counter + 1, stats, false)

/-- One call of `_render`: the scheduler always runs first; if the CarState
snapshot is missing the tick then returns early with no render output;
otherwise the meter, flash machine, and stat rows produce the render model.
Returns (new state, render output if any, whether the store was read). -/
def tick (st : WidgetState) (store : ParamsResult) (cs? : Option CarState) :
    WidgetState × Option RenderModel × Bool :=
  let s := scheduler_step st.update_counter st.stats store
  match cs? with
  | none => ({ st with update_counter := s.1, stats := s.2.1 }, none, s.2.2)
  | some cs =>
    let m := draw_rpm_meter st.gear_before_clutch st.rpm_filter_x s.2.1 cs
    let f := flash_step st.flash cs.shiftGrade
    (({ stats := s.2.1
        update_counter := s.1
        flash := f.1
        gear_before_clutch := m.1
        rpm_filter_x := m.2.1 } : WidgetState),
     some { meter := m.2.2
            gear_text := gear_label cs.gearActual
            flash_display := f.2.1
            flash_glyph := (f.2.1).map glyph_for_grade
            arrow := suggestion_arrow s.2.1
            launch := (launch_display s.2.1 cs).1
            stall_lug := stall_lug_display s.2.1 cs
            shift_quality := (shift_quality_display s.2.1).1 },
     s.2.2)

/-- Run a sequence of ticks, counting how many times the store was read. -/
def run_ticks : WidgetState → List (ParamsResult × Option CarState) → WidgetState × ℕ
  | st, [] => (st, 0)
  | st, i :: is =>
    let r := tick st i.1 i.2
    let rest := run_ticks r.1 is
    (rest.1, (if r.2.2 then 1 else 0) + rest.2)

/-! ## Helper lemmas -/

lemma tick_counter_eq (st : WidgetState) (store : ParamsResult) (cs? : Option CarState) :
    (tick st store cs?).1.update_counter = (scheduler_step st.update_counter st.stats store).1 := by
  cases cs? <;> rfl

lemma tick_stats_eq (st : WidgetState) (store : ParamsResult) (cs? : Option CarState) :
    (tick st store cs?).1.stats = (scheduler_step st.update_counter st.stats store).2.1 := by
  cases cs? <;> rfl

lemma tick_read_eq (st : WidgetState) (store : ParamsResult) (cs? : Option CarState) :
    (tick st store cs?).2.2 = (scheduler_step st.update_counter st.stats store).2.2 := by
  cases cs? <;> rfl

lemma tick_flash_some (st : WidgetState) (store : ParamsResult) (cs : CarState) :
    (tick st store (some cs)).1.flash = (flash_step st.flash cs.shiftGrade).1 := rfl

lemma tick_tracker_some (st : WidgetState) (store : ParamsResult) (cs : CarState) :
    (tick st store (some cs)).1.gear_before_clutch =
      gear_before_clutch_step st.gear_before_clutch cs := rfl

lemma tick_tracker_none (st : WidgetState) (store : ParamsResult) :
    (tick st store none).1.gear_before_clutch = st.gear_before_clutch := rfl

lemma flash_step_last (fs : FlashState) (g : ℤ) :
    (flash_step fs g).1.last_shift_grade = g := by
  simp only [flash_step, flash_countdown, flash_trigger]
  split_ifs <;> rfl

lemma draw_rev_eq (t : ℤ) (fx : ℚ) (stats : Stats) (cs : CarState) :
    (draw_rpm_meter t fx stats cs).2.2.rev_targets =
      rev_targets_resolve (gear_before_clutch_step t cs) stats cs := rfl

lemma draw_tracker_eq (t : ℤ) (fx : ℚ) (stats : Stats) (cs : CarState) :
    (draw_rpm_meter t fx stats cs).1 = gear_before_clutch_step t cs := rfl

/-! ## C2: a tick with a missing snapshot -/

/-- C2 (counterexample): a missing snapshot does not leave the whole state
unchanged: the stats-refresh tick counter is incremented before the snapshot
check, so from the initial state it moves from 0 to 1 even though the tick is
skipped. -/
theorem c2_counterexample :
    (tick initState ParamsResult.error none).2.1 = none ∧
    initState.update_counter = 0 ∧
    (tick initState ParamsResult.error none).1.update_counter = 1 := by
  refine ⟨rfl, rfl, ?_⟩
  rw [tick_counter_eq]
  unfold scheduler_step initState
  norm_num

/-- C2 (amended): if the vehicle-state snapshot is missing, the tick produces
no render output and leaves the filter accumulator, the flash state, and the
gear-before-clutch tracker unchanged; however the stats scheduler still runs
first, so the tick counter is incremented (resetting on the 15th tick) and on
a reset the cached stats snapshot is refreshed from the store. -/
theorem c2_skip_tick (st : WidgetState) (store : ParamsResult) :
    (tick st store none).2.1 = none ∧
    (tick st store none).1.rpm_filter_x = st.rpm_filter_x ∧
    (tick st store none).1.flash = st.flash ∧
    (tick st store none).1.gear_before_clutch = st.gear_before_clutch ∧
    (tick st store none).1.update_counter =
      (if 15 ≤ st.update_counter + 1 then 0 else st.update_counter + 1) ∧
    (tick st store none).1.stats =
      (if 15 ≤ st.update_counter + 1 then load_stats store else st.stats) := by
  refine ⟨rfl, rfl, rfl, rfl, ?_, ?_⟩
  · rw [tick_counter_eq]
    unfold scheduler_step
    split_ifs <;> rfl
  · rw [tick_stats_eq]
    unfold scheduler_step
    split_ifs <;> rfl

/-- C2 (witness): concrete application of `c2_skip_tick` at the initial state
with a throwing store. -/
theorem c2_skip_tick_witness :
    (tick initState ParamsResult.error none).2.1 = none ∧
    (tick initState ParamsResult.error none).1.flash = initState.flash ∧
    (tick initState ParamsResult.error none).1.gear_before_clutch =
      initState.gear_before_clutch :=
  ⟨(c2_skip_tick initState ParamsResult.error).1,
   (c2_skip_tick initState ParamsResult.error).2.2.1,
   (c2_skip_tick initState ParamsResult.error).2.2.2.1⟩

/-! ## C3: the flash machine on the sequence [0,0,2,2,0] -/

set_option maxRecDepth 100000 in
/-- C3: feeding the flash machine the raw grades [0,0,2,2,0] followed by 150
zeros fires the trigger exactly once, at the first nonzero sample, capturing
grade 2 and setting the countdown to 150 there; the flashing display covers
exactly the 150 ticks from the trigger tick, after which the machine is back
to idle (countdown 0, nothing displayed). -/
theorem c3_flash_sequence :
    flash_trigger ⟨0, 0, 0⟩ 2 = (⟨2, 150, 2⟩, true) ∧
    run_flash ⟨0, 0, 0⟩ ([0, 0, 2, 2, 0] ++ List.replicate 150 0) =
      (⟨0, 0, 2⟩, 1,
       [none, none] ++ List.replicate 150 (some 2) ++ [none, none, none]) := by
  constructor
  · rfl
  · decide

/-! ## C4: the edge-trigger condition -/

/-- C4 (counterexample): a change of the raw grade from 0 to the nonzero value
-1 does not fire the trigger: the code requires the current grade to be
strictly positive, not merely nonzero. -/
theorem c4_counterexample :
    (FlashState.mk 0 0 0).last_shift_grade = 0 ∧
    (-1 : ℤ) ≠ 0 ∧
    (flash_trigger ⟨0, 0, 0⟩ (-1)).2 = false ∧
    (flash_trigger ⟨0, 0, 0⟩ (-1)).1.shift_flash_frames = 0 := by
  refine ⟨rfl, by decide, ?_, ?_⟩ <;> rfl

/-- C4 (amended): the flash trigger fires if and only if the previous raw
grade was 0 and the current raw grade is strictly positive (negative "bad"
grades never trigger); when it fires the countdown is set to 150 and the grade
is captured, when it does not fire they are untouched; and on every tick —
firing or not — the last-grade memory is unconditionally overwritten with the
current raw grade, also through the full `tick`. -/
theorem c4_flash_trigger :
    (∀ (fs : FlashState) (g : ℤ),
      ((flash_trigger fs g).1.last_shift_grade = g) ∧
      ((flash_trigger fs g).2 = true ↔ (0 < g ∧ fs.last_shift_grade = 0)) ∧
      ((flash_trigger fs g).2 = true →
        (flash_trigger fs g).1.shift_flash_frames = 150 ∧
        (flash_trigger fs g).1.flash_grade = g) ∧
      ((flash_trigger fs g).2 = false →
        (flash_trigger fs g).1.shift_flash_frames = fs.shift_flash_frames ∧
        (flash_trigger fs g).1.flash_grade = fs.flash_grade)) ∧
    (∀ (st : WidgetState) (store : ParamsResult) (cs : CarState),
      (tick st store (some cs)).1.flash.last_shift_grade = cs.shiftGrade) := by
  constructor
  · intro fs g
    unfold flash_trigger
    split_ifs with h <;> simp_all
  · intro st store cs
    rw [tick_flash_some]
    exact flash_step_last st.flash cs.shiftGrade

/-- C4 (witness): concrete instances of `c4_flash_trigger`. -/
theorem c4_flash_trigger_witness :
    (flash_trigger ⟨5, 7, 9⟩ 3).1.last_shift_grade = 3 ∧
    (flash_trigger ⟨0, 0, 0⟩ 2).1.shift_flash_frames = 150 ∧
    (tick initState ParamsResult.error
      (some ⟨0, 0, 4, false, 0, false⟩)).1.flash.last_shift_grade = 4 :=
  ⟨(c4_flash_trigger.1 ⟨5, 7, 9⟩ 3).1,
   ((c4_flash_trigger.1 ⟨0, 0, 0⟩ 2).2.2.1 (by decide)).1,
   c4_flash_trigger.2 initState ParamsResult.error ⟨0, 0, 4, false, 0, false⟩⟩

/-! ## C9: re-triggering while a flash is active -/

/-- C9: the trigger is not gated on the machine being idle: a rising edge
(previous grade 0, current grade positive) arriving while the countdown is
still positive resets the countdown to 150 and overwrites the captured
grade with the new grade. -/
theorem c9_retrigger (fs : FlashState) (g : ℤ)
    (_hactive : 0 < fs.shift_flash_frames)
    (hlast : fs.last_shift_grade = 0) (hpos : 0 < g) :
    flash_trigger fs g = (⟨g, 150, g⟩, true) := by
  unfold flash_trigger
  rw [if_pos ⟨hpos, hlast⟩]

/-- C9 (witness): a rising edge to grade 2 with 37 frames still remaining. -/
theorem c9_retrigger_witness :
    flash_trigger ⟨0, 37, 1⟩ 2 = (⟨2, 150, 2⟩, true) :=
  c9_retrigger ⟨0, 37, 1⟩ 2 (by decide) rfl (by decide)

/-! ## C7: the gear-before-clutch tracker -/

lemma run_ticks_cons (st : WidgetState) (i : ParamsResult × Option CarState)
    (is : List (ParamsResult × Option CarState)) :
    run_ticks st (i :: is) =
      ((run_ticks (tick st i.1 i.2).1 is).1,
       (if (tick st i.1 i.2).2.2 then 1 else 0) + (run_ticks (tick st i.1 i.2).1 is).2) := rfl

lemma tick_tracker_clutch_pressed (st : WidgetState) (store : ParamsResult)
    (cs : CarState) (h : cs.clutchPressed = true) :
    (tick st store (some cs)).1.gear_before_clutch = st.gear_before_clutch := by
  rw [tick_tracker_some]
  unfold gear_before_clutch_step
  rw [if_neg]
  rintro ⟨hc, _⟩
  rw [h] at hc
  cases hc

/-- C7: on a tick whose snapshot is present, the gear-before-clutch tracker is
set to the current gear exactly when the clutch is disengaged and the gear is
positive, and is left unchanged otherwise; over any run of ticks during which
the clutch stays pressed (or snapshots are missing) the tracker is frozen, and
the first disengaged tick with a valid gear then overwrites it. -/
theorem c7_gear_tracker :
    (∀ (st : WidgetState) (store : ParamsResult) (cs : CarState),
      (cs.clutchPressed = false → 0 < cs.gearActual →
        (tick st store (some cs)).1.gear_before_clutch = cs.gearActual) ∧
      ((cs.clutchPressed = true ∨ cs.gearActual ≤ 0) →
        (tick st store (some cs)).1.gear_before_clutch = st.gear_before_clutch)) ∧
    (∀ (st : WidgetState) (l : List (ParamsResult × Option CarState)),
      (∀ i ∈ l, ∀ cs, i.2 = some cs → cs.clutchPressed = true) →
      (run_ticks st l).1.gear_before_clutch = st.gear_before_clutch) := by
  constructor
  · intro st store cs
    constructor
    · intro hc hg
      rw [tick_tracker_some]
      unfold gear_before_clutch_step
      rw [if_pos ⟨hc, hg⟩]
    · intro h
      rw [tick_tracker_some]
      unfold gear_before_clutch_step
      rw [if_neg]
      rintro ⟨hc, hg⟩
      rcases h with h | h
      · rw [h] at hc; cases hc
      · omega
  · intro st l
    induction l generalizing st with
    | nil => intro _; rfl
    | cons i is ih =>
      intro h
      rw [run_ticks_cons]
      have hrest := ih (tick st i.1 i.2).1 (fun j hj cs hcs => h j (List.mem_cons_of_mem i hj) cs hcs)
      rw [hrest]
      cases hi : i.2 with
      | none => rw [tick_tracker_none]
      | some cs =>
        exact tick_tracker_clutch_pressed st i.1 cs (h i (List.mem_cons_self i is) cs hi)

/-- C7 (witness): from a tracker of 2, a disengaged tick in gear 4 overwrites
the tracker, a clutch-pressed tick in gear 4 freezes it, and a run of
clutch-pressed ticks leaves it frozen. -/
theorem c7_gear_tracker_witness :
    (tick ⟨emptyStats, 0, ⟨0, 0, 0⟩, 2, 0⟩ ParamsResult.error
      (some ⟨0, 4, 0, false, 0, false⟩)).1.gear_before_clutch = 4 ∧
    (tick ⟨emptyStats, 0, ⟨0, 0, 0⟩, 2, 0⟩ ParamsResult.error
      (some ⟨0, 4, 0, true, 0, false⟩)).1.gear_before_clutch = 2 ∧
    (run_ticks ⟨emptyStats, 0, ⟨0, 0, 0⟩, 2, 0⟩
      [(ParamsResult.error, some ⟨0, 4, 0, true, 0, false⟩)]).1.gear_before_clutch = 2 :=
  ⟨(c7_gear_tracker.1 ⟨emptyStats, 0, ⟨0, 0, 0⟩, 2, 0⟩ ParamsResult.error
      ⟨0, 4, 0, false, 0, false⟩).1 rfl (by decide),
   (c7_gear_tracker.1 ⟨emptyStats, 0, ⟨0, 0, 0⟩, 2, 0⟩ ParamsResult.error
      ⟨0, 4, 0, true, 0, false⟩).2 (Or.inl rfl),
   c7_gear_tracker.2 ⟨emptyStats, 0, ⟨0, 0, 0⟩, 2, 0⟩
      [(ParamsResult.error, some ⟨0, 4, 0, true, 0, false⟩)]
      (by
        intro i hi cs hcs
        rw [List.mem_singleton] at hi
        subst hi
        cases hcs
        rfl)⟩

/-! ## C8: the stats refresh scheduler -/

lemma run_ticks_reads_once (l : List (ParamsResult × Option CarState)) :
    ∀ st : WidgetState, st.update_counter + l.length = 15 → st.update_counter ≤ 14 →
      (run_ticks st l).2 = 1 ∧ (run_ticks st l).1.update_counter = 0 := by
  induction l with
  | nil =>
    intro st h1 h2
    simp only [List.length_nil, Nat.add_zero] at h1
    omega
  | cons i is ih =>
    intro st h1 h2
    rw [run_ticks_cons]
    by_cases hc : 15 ≤ st.update_counter + 1
    · have hcount : st.update_counter = 14 := by omega
      have hlen : is.length = 0 := by
        simp only [List.length_cons] at h1
        omega
      rw [List.length_eq_zero] at hlen
      subst hlen
      have hr : (tick st i.1 i.2).2.2 = true := by
        rw [tick_read_eq]
        unfold scheduler_step
        rw [if_pos hc]
      have hcnt : (tick st i.1 i.2).1.update_counter = 0 := by
        rw [tick_counter_eq]
        unfold scheduler_step
        rw [if_pos hc]
      rw [hr]
      exact ⟨rfl, hcnt⟩
    · have hr : (tick st i.1 i.2).2.2 = false := by
        rw [tick_read_eq]
        unfold scheduler_step
        rw [if_neg hc]
      have hcnt : (tick st i.1 i.2).1.update_counter = st.update_counter + 1 := by
        rw [tick_counter_eq]
        unfold scheduler_step
        rw [if_neg hc]
      have hrest := ih (tick st i.1 i.2).1
        (by rw [hcnt]; simp only [List.length_cons] at h1; omega)
        (by omega)
      rw [hr, hrest.1]
      exact ⟨rfl, hrest.2⟩

/-- C8: the stats scheduler reads the external store exactly once every 15
ticks (the read happens on the tick whose incremented counter reaches 15, and
the counter resets to 0 there); on a read the in-memory snapshot is replaced
by the result of `_load_stats`, which maps a thrown exception or a falsy
result to the empty mapping, so an error is never propagated and no data from
a failed read is retained. -/
theorem c8_stats_refresh :
    (∀ (st : WidgetState) (store : ParamsResult) (cs? : Option CarState),
      ((tick st store cs?).2.2 = true ↔ 15 ≤ st.update_counter + 1) ∧
      ((tick st store cs?).2.2 = true →
        (tick st store cs?).1.update_counter = 0 ∧
        (tick st store cs?).1.stats = load_stats store) ∧
      ((tick st store cs?).2.2 = false →
        (tick st store cs?).1.update_counter = st.update_counter + 1 ∧
        (tick st store cs?).1.stats = st.stats)) ∧
    load_stats ParamsResult.error = emptyStats ∧
    load_stats ParamsResult.missing = emptyStats ∧
    (∀ (st : WidgetState) (l : List (ParamsResult × Option CarState)),
      st.update_counter = 0 → l.length = 15 →
      (run_ticks st l).2 = 1 ∧ (run_ticks st l).1.update_counter = 0) := by
  refine ⟨?_, rfl, rfl, ?_⟩
  · intro st store cs?
    rw [tick_read_eq, tick_counter_eq, tick_stats_eq]
    unfold scheduler_step
    split_ifs with h
    · exact ⟨by simp [h], fun _ => ⟨rfl, rfl⟩, by simp⟩
    · exact ⟨by simp [h], by simp, fun _ => ⟨rfl, rfl⟩⟩
  · intro st l h0 hlen
    exact run_ticks_reads_once l st (by omega) (by omega)

/-- C8 (witness): from the initial state, fifteen ticks with a throwing store
perform exactly one read, and on the reading tick the snapshot becomes the
result of `_load_stats` on the throwing store (the empty mapping). -/
theorem c8_stats_refresh_witness :
    (run_ticks initState
      (List.replicate 15 ((ParamsResult.error, none) : ParamsResult × Option CarState))).2 = 1 ∧
    (tick ⟨emptyStats, 14, ⟨0, 0, 0⟩, 0, 0⟩ ParamsResult.error none).1.stats =
      load_stats ParamsResult.error :=
  ⟨(c8_stats_refresh.2.2.2 initState
      (List.replicate 15 ((ParamsResult.error, none) : ParamsResult × Option CarState))
      rfl (by simp)).1,
   ((c8_stats_refresh.1 ⟨emptyStats, 14, ⟨0, 0, 0⟩, 0, 0⟩ ParamsResult.error none).2.1
      (((c8_stats_refresh.1 ⟨emptyStats, 14, ⟨0, 0, 0⟩, 0, 0⟩ ParamsResult.error none).1).mpr
        (by decide))).2⟩

/-! ## Rounding lemmas -/

lemma pyRound_near (q : ℚ) : |(pyRound q : ℚ) - q| ≤ 1/2 := by
  unfold pyRound
  have h0 : (0 : ℚ) ≤ Int.fract q := Int.fract_nonneg q
  have h1 : Int.fract q < 1 := Int.fract_lt_one q
  have hq : (⌊q⌋ : ℚ) = q - Int.fract q := by unfold Int.fract; ring
  split_ifs with hgt hlt hev
  · push_cast
    rw [hq, abs_of_nonneg (by linarith)]
    linarith
  · rw [hq, abs_of_nonpos (by linarith)]
    linarith
  · have heq : Int.fract q = 1/2 := le_antisymm (not_lt.mp hgt) (not_lt.mp hlt)
    rw [hq, abs_of_nonpos (by linarith)]
    linarith
  · have heq : Int.fract q = 1/2 := le_antisymm (not_lt.mp hgt) (not_lt.mp hlt)
    push_cast
    rw [hq, abs_of_nonneg (by linarith)]
    linarith

lemma roundTen_dvd (q : ℚ) : (10 : ℤ) ∣ roundTen q :=
  ⟨pyRound (q / 10), by unfold roundTen; ring⟩

lemma roundTen_near (q : ℚ) : |(roundTen q : ℚ) - q| ≤ 5 := by
  have h := pyRound_near (q / 10)
  unfold roundTen
  push_cast
  rw [show (pyRound (q / 10) : ℚ) * 10 - q = 10 * ((pyRound (q / 10) : ℚ) - q / 10) by ring,
    abs_mul, abs_of_nonneg (by norm_num : (0 : ℚ) ≤ 10)]
  linarith

/-! ## C5: visibility of the rev-match targets -/

/-- C5: rev-match targets are present in the render output exactly when the
clutch is pressed or the external suggestion differs from "ok", and the
gear-before-clutch tracker (as updated this tick) is positive; they carry full
emphasis exactly when the clutch is pressed. The claim's truth table holds:
(clutch off, "ok", tracker 3) hidden; (clutch on, "ok", 3) shown at full
emphasis; (clutch off, "upshift", 3) shown at reduced emphasis; a zero tracker
is hidden regardless of the other inputs. -/
theorem c5_visibility :
    (∀ (t : ℤ) (fx : ℚ) (stats : Stats) (cs : CarState),
      ((draw_rpm_meter t fx stats cs).2.2.rev_targets.isSome = true ↔
        ((cs.clutchPressed = true ∨ (stats.shift_suggestion).getD ("ok") ≠ "ok") ∧
          0 < (draw_rpm_meter t fx stats cs).1)) ∧
      (∀ rt, (draw_rpm_meter t fx stats cs).2.2.rev_targets = some rt →
        rt.full_emphasis = cs.clutchPressed)) ∧
    ((draw_rpm_meter 3 0 { emptyStats with shift_suggestion := some ("ok") }
        ⟨3000, 0, 0, false, 10, false⟩).2.2.rev_targets = none) ∧
    (((draw_rpm_meter 3 0 { emptyStats with shift_suggestion := some ("ok") }
        ⟨3000, 0, 0, true, 10, false⟩).2.2.rev_targets).map RevTargets.full_emphasis =
      some true) ∧
    (((draw_rpm_meter 3 0 { emptyStats with shift_suggestion := some ("upshift") }
        ⟨3000, 0, 0, false, 10, false⟩).2.2.rev_targets).map RevTargets.full_emphasis =
      some false) ∧
    (∀ (fx : ℚ) (stats : Stats) (cs : CarState), cs.gearActual ≤ 0 →
      (draw_rpm_meter 0 fx stats cs).2.2.rev_targets = none) := by
  refine ⟨?_, ?_, ?_, ?_, ?_⟩
  · intro t fx stats cs
    constructor
    · rw [draw_rev_eq, draw_tracker_eq]
      unfold rev_targets_resolve
      split_ifs with h
      · simpa using h
      · simpa using h
    · intro rt hrt
      rw [draw_rev_eq] at hrt
      unfold rev_targets_resolve at hrt
      split_ifs at hrt
      cases hrt
      rfl
  · rw [draw_rev_eq]
    unfold rev_targets_resolve
    rw [if_neg]
    simp
  · rw [draw_rev_eq]
    unfold rev_targets_resolve
    rw [if_pos ⟨Or.inl rfl, by decide⟩]
    rfl
  · rw [draw_rev_eq]
    unfold rev_targets_resolve
    rw [if_pos ⟨Or.inr (by simp), by decide⟩]
    rfl
  · intro fx stats cs hg
    rw [draw_rev_eq]
    have ht : gear_before_clutch_step 0 cs = 0 := by
      unfold gear_before_clutch_step
      rw [if_neg]
      rintro ⟨_, hgea⟩
      omega
    rw [ht]
    unfold rev_targets_resolve
    rw [if_neg]
    rintro ⟨_, h0⟩
    omega

/-- C5 (witness): concrete applications of `c5_visibility`: a stopped car in
neutral with the clutch pressed and a zero tracker shows no targets, and with
tracker 3 the targets that are shown carry full emphasis. -/
theorem c5_visibility_witness :
    (draw_rpm_meter 0 0 emptyStats ⟨0, 0, 0, true, 0, false⟩).2.2.rev_targets = none ∧
    (RevTargets.mk true none none).full_emphasis = true :=
  ⟨c5_visibility.2.2.2.2 0 emptyStats ⟨0, 0, 0, true, 0, false⟩ (by decide),
   (c5_visibility.1 3 0 emptyStats ⟨0, 0, 0, true, 0, false⟩).2 ⟨true, none, none⟩
     (by
       rw [draw_rev_eq]
       unfold rev_targets_resolve gear_before_clutch_step
       norm_num [down_rpm_for, up_rpm_for, down_marker_for, up_marker_for,
         rpm_for_speed_and_gear, RPM_REDLINE, RPM_TARGET_MIN_DISPLAY])⟩

/-! ## C6: the rev-match target values and their classification -/

/-- C6: when the rev-match targets are visible, the downshift target equals
`rpm_for_speed_and_gear(speed, tracker - 1)` and is possible only when the
tracker is above 1 (otherwise no down marker); a downshift target at or over
the 7500 redline renders as a warning clamped to the top edge of the meter
(position fraction 1), one strictly between the 750 display threshold and the
redline renders as a normal proportional marker, and one at or below the
threshold is suppressed. The upshift target equals
`rpm_for_speed_and_gear(speed, tracker + 1)`, is possible only when the
tracker is below 6, and renders only strictly between the threshold and the
redline. Every rendered label is `roundTen` of its target, which is the target
rounded to the nearest multiple of 10. -/
theorem c6_rev_match_targets (t : ℤ) (fx : ℚ) (stats : Stats) (cs : CarState)
    (rt : RevTargets)
    (hrt : (draw_rpm_meter t fx stats cs).2.2.rev_targets = some rt) :
    ((draw_rpm_meter t fx stats cs).1 ≤ 1 → rt.down_marker = none) ∧
    (1 < (draw_rpm_meter t fx stats cs).1 →
      (RPM_REDLINE ≤ rpm_for_speed_and_gear cs.vEgo ((draw_rpm_meter t fx stats cs).1 - 1) →
        rt.down_marker = some ⟨true, 1,
          roundTen (rpm_for_speed_and_gear cs.vEgo ((draw_rpm_meter t fx stats cs).1 - 1))⟩) ∧
      (RPM_TARGET_MIN_DISPLAY <
          rpm_for_speed_and_gear cs.vEgo ((draw_rpm_meter t fx stats cs).1 - 1) →
       rpm_for_speed_and_gear cs.vEgo ((draw_rpm_meter t fx stats cs).1 - 1) < RPM_REDLINE →
        rt.down_marker = some ⟨false,
          rpm_for_speed_and_gear cs.vEgo ((draw_rpm_meter t fx stats cs).1 - 1) / RPM_REDLINE,
          roundTen (rpm_for_speed_and_gear cs.vEgo ((draw_rpm_meter t fx stats cs).1 - 1))⟩) ∧
      (rpm_for_speed_and_gear cs.vEgo ((draw_rpm_meter t fx stats cs).1 - 1) ≤
          RPM_TARGET_MIN_DISPLAY →
        rt.down_marker = none)) ∧
    (6 ≤ (draw_rpm_meter t fx stats cs).1 → rt.up_marker = none) ∧
    ((draw_rpm_meter t fx stats cs).1 < 6 →
      (RPM_TARGET_MIN_DISPLAY <
          rpm_for_speed_and_gear cs.vEgo ((draw_rpm_meter t fx stats cs).1 + 1) →
       rpm_for_speed_and_gear cs.vEgo ((draw_rpm_meter t fx stats cs).1 + 1) < RPM_REDLINE →
        rt.up_marker = some ⟨false,
          rpm_for_speed_and_gear cs.vEgo ((draw_rpm_meter t fx stats cs).1 + 1) / RPM_REDLINE,
          roundTen (rpm_for_speed_and_gear cs.vEgo ((draw_rpm_meter t fx stats cs).1 + 1))⟩) ∧
      (¬(RPM_TARGET_MIN_DISPLAY <
            rpm_for_speed_and_gear cs.vEgo ((draw_rpm_meter t fx stats cs).1 + 1) ∧
         rpm_for_speed_and_gear cs.vEgo ((draw_rpm_meter t fx stats cs).1 + 1) < RPM_REDLINE) →
        rt.up_marker = none)) ∧
    (∀ q : ℚ, (10 : ℤ) ∣ roundTen q ∧ |(roundTen q : ℚ) - q| ≤ 5) := by
  rw [draw_rev_eq] at hrt
  simp only [draw_tracker_eq]
  set T := gear_before_clutch_step t cs with hT
  unfold rev_targets_resolve at hrt
  split_ifs at hrt with hshow
  · obtain rfl := Option.some.inj hrt
    dsimp only
    refine ⟨?_, ?_, ?_, ?_, fun q => ⟨roundTen_dvd q, roundTen_near q⟩⟩
    · intro h1
      have hd : down_rpm_for T cs.vEgo = 0 := by
        unfold down_rpm_for
        rw [if_neg (by omega)]
      rw [hd]
      unfold down_marker_for
      rw [if_neg (by norm_num [RPM_REDLINE]), if_neg (by norm_num [RPM_TARGET_MIN_DISPLAY])]
    · intro h1
      have hd : down_rpm_for T cs.vEgo = rpm_for_speed_and_gear cs.vEgo (T - 1) := by
        unfold down_rpm_for
        rw [if_pos h1]
      refine ⟨?_, ?_, ?_⟩
      · intro hge
        rw [hd]
        unfold down_marker_for
        rw [if_pos hge]
      · intro hgt hlt
        rw [hd]
        unfold down_marker_for
        rw [if_neg (not_le.mpr hlt), if_pos hgt]
      · intro hle
        rw [hd]
        unfold down_marker_for
        rw [if_neg (not_le.mpr (lt_of_le_of_lt hle
              (by norm_num [RPM_TARGET_MIN_DISPLAY, RPM_REDLINE]))),
            if_neg (not_lt.mpr hle)]
    · intro h6
      have hu : up_rpm_for T cs.vEgo = 0 := by
        unfold up_rpm_for
        rw [if_neg (by omega)]
      rw [hu]
      unfold up_marker_for
      rw [if_neg]
      rintro ⟨hgt, _⟩
      norm_num [RPM_TARGET_MIN_DISPLAY] at hgt
    · intro h6
      have hu : up_rpm_for T cs.vEgo = rpm_for_speed_and_gear cs.vEgo (T + 1) := by
        unfold up_rpm_for
        rw [if_pos h6]
      constructor
      · intro hgt hlt
        rw [hu]
        unfold up_marker_for
        rw [if_pos ⟨hgt, hlt⟩]
      · intro hnot
        rw [hu]
        unfold up_marker_for
        rw [if_neg hnot]

/-- C6 (witness): applying `c6_rev_match_targets` with the clutch pressed at
standstill in (tracked) gear 3: the downshift target resolves to 0, is at or
below the display threshold and is therefore suppressed; and the label
rounding is a multiple of 10 within 5 of its argument. -/
theorem c6_rev_match_targets_witness :
    (RevTargets.mk true none none).down_marker = none ∧
    ((10 : ℤ) ∣ roundTen 0) ∧ |(roundTen 0 : ℚ) - 0| ≤ 5 := by
  have h := c6_rev_match_targets 3 0 emptyStats ⟨0, 0, 0, true, 0, false⟩ ⟨true, none, none⟩
    (by
      rw [draw_rev_eq]
      unfold rev_targets_resolve gear_before_clutch_step
      norm_num [down_rpm_for, up_rpm_for, down_marker_for, up_marker_for,
        rpm_for_speed_and_gear, BRZ_GEAR_RATIOS, RPM_REDLINE, RPM_TARGET_MIN_DISPLAY])
  refine ⟨(h.2.1 (by decide)).2.2 ?_, (h.2.2.2.2 0).1, (h.2.2.2.2 0).2⟩
  show rpm_for_speed_and_gear (0 : ℚ) _ ≤ RPM_TARGET_MIN_DISPLAY
  unfold rpm_for_speed_and_gear
  rw [if_pos (Or.inr (le_refl 0))]
  norm_num [RPM_TARGET_MIN_DISPLAY]

/-! ## C10: division guards in the launch and shift-quality rows -/

/-- C10 (counterexample): with an empty stats mapping (launches absent) but a
launch in progress (speed 2 m/s, clutch released), the launch row shows the
LAUNCHING indicator, not the no-data placeholder the claim requires. -/
theorem c10_counterexample :
    emptyStats.launches = none ∧
    (launch_display emptyStats ⟨0, 0, 0, false, 2, false⟩).1 = LaunchDisplay.launching ∧
    LaunchDisplay.launching ≠ LaunchDisplay.noData := by
  refine ⟨rfl, ?_, by decide⟩
  simp only [launch_display]
  rw [if_pos (by norm_num)]

/-- C10 (amended): the launch-percentage division is evaluated only under the
guard `launches > 0` and the shift-percentage division only under
`shifts > 0`, so no tick divides by zero; when `shifts` is 0 or absent the
shift row shows the no-data placeholder, and when `launches` is 0 or absent
the launch row shows the no-data placeholder unless a launch is in progress
(0.5 < speed < 5 with the clutch released), in which case the transient
LAUNCHING indicator is shown instead. -/
theorem c10_division_guards (stats : Stats) (cs : CarState) :
    ((launch_display stats cs).2 = true → 0 < (stats.launches).getD 0) ∧
    ((shift_quality_display stats).2 = true → 0 < (stats.shifts).getD 0) ∧
    ((stats.launches).getD 0 ≤ 0 →
      ¬(cs.vEgo < 5 ∧ 1/2 < cs.vEgo ∧ cs.clutchPressed = false) →
      (launch_display stats cs).1 = LaunchDisplay.noData) ∧
    ((stats.shifts).getD 0 ≤ 0 → (shift_quality_display stats).1 = ShiftDisplay.noData) := by
  refine ⟨?_, ?_, ?_, ?_⟩
  · intro h
    simp only [launch_display] at h
    by_cases h1 : (cs.vEgo < 5 ∧ 1/2 < cs.vEgo ∧ cs.clutchPressed = false)
    · rw [if_pos h1] at h
      exact Bool.noConfusion h
    · rw [if_neg h1] at h
      by_cases h2 : 0 < (stats.launches).getD 0
      · exact h2
      · rw [if_neg h2] at h
        exact Bool.noConfusion h
  · intro h
    simp only [shift_quality_display] at h
    by_cases h1 : 0 < (stats.shifts).getD 0
    · exact h1
    · rw [if_neg h1] at h
      exact Bool.noConfusion h
  · intro hle hnot
    simp only [launch_display]
    rw [if_neg hnot, if_neg (by omega)]
  · intro hle
    simp only [shift_quality_display]
    rw [if_neg (by omega)]

/-- C10 (witness): with an empty stats mapping and the clutch pressed at
2 m/s (so no launch in progress), both rows show their no-data placeholder. -/
theorem c10_division_guards_witness :
    (launch_display emptyStats ⟨0, 0, 0, true, 2, false⟩).1 = LaunchDisplay.noData ∧
    (shift_quality_display emptyStats).1 = ShiftDisplay.noData :=
  ⟨(c10_division_guards emptyStats ⟨0, 0, 0, true, 2, false⟩).2.2.1
      (by simp [emptyStats])
      (by rintro ⟨_, _, hcl⟩; exact Bool.noConfusion hcl),
   (c10_division_guards emptyStats ⟨0, 0, 0, true, 2, false⟩).2.2.2
      (by simp [emptyStats])⟩

end ManualStats
